import Mathlib

/-!
Verification of the experiment-statistics and guardrail-decision engine of the
azure-ceo repository.

Embedded source files:
* `src/plugins/experiment/metrics_plugin.py` (`MetricsPlugin.calculate_significance`,
  `MetricsPlugin._normal_cdf`);
* `src/agents/experiment_runner.py` (guardrail evaluation, winner loop and the
  final decision token of `run_statistical_analysis`);
* `src/utils/stats_analysis.py` (`StatisticalAnalyzer.calculate_two_proportion_test`,
  `StatisticalAnalyzer.calculate_sample_size_required`).

Modelling conventions: Python floating-point arithmetic is idealised over the
real numbers; JSON integer/decimal inputs are rationals.  `math.erf` is the
real error function (integral form below); `scipy.stats.norm.cdf` and the
plugin's `_normal_cdf` coincide with `normal_cdf` below; `scipy.stats.norm.ppf`
is the exact inverse of `normal_cdf`.  Python runtime exceptions
(`ZeroDivisionError`, `math domain error`) are modelled as `Except` error
values, distinguished from the JSON error objects the plugin returns.
-/

open Real MeasureTheory Set Filter

/-- The error function, modelling Python `math.erf`:
`erf x = (2/sqrt pi) * integral of exp (-t^2) over 0..x`. -/
noncomputable def erf (x : ℝ) : ℝ :=
  (2 / Real.sqrt π) * ∫ t in (0:ℝ)..x, Real.exp (-(t ^ 2))

/-- The standard normal CDF, modelling `MetricsPlugin._normal_cdf` (line 32 of
`metrics_plugin.py`: `(1.0 + math.erf(x / math.sqrt(2.0))) / 2.0`) and
`scipy.stats.norm.cdf`. -/
noncomputable def normal_cdf (x : ℝ) : ℝ :=
  (1 + erf (x / Real.sqrt 2)) / 2

lemma intInt_exp (a b : ℝ) :
    IntervalIntegrable (fun t : ℝ => Real.exp (-(t ^ 2))) volume a b :=
  ((continuous_pow 2).neg.exp).intervalIntegrable a b

lemma erf_zero : erf 0 = 0 := by
  simp [erf]

lemma erf_le_erf {a b : ℝ} (hab : a ≤ b) : erf a ≤ erf b := by
  unfold erf
  have h := intervalIntegral.integral_add_adjacent_intervals
    (intInt_exp 0 a) (intInt_exp a b)
  have h2 : 0 ≤ ∫ t in a..b, Real.exp (-(t ^ 2)) :=
    intervalIntegral.integral_nonneg hab (fun u _ => (Real.exp_pos _).le)
  have hc : 0 ≤ 2 / Real.sqrt π := by positivity
  have hle : (∫ t in (0:ℝ)..a, Real.exp (-(t ^ 2)))
      ≤ ∫ t in (0:ℝ)..b, Real.exp (-(t ^ 2)) := by linarith
  exact mul_le_mul_of_nonneg_left hle hc

lemma erf_lt_erf {a b : ℝ} (hab : a < b) : erf a < erf b := by
  unfold erf
  have h := intervalIntegral.integral_add_adjacent_intervals
    (intInt_exp 0 a) (intInt_exp a b)
  have h2 : 0 < ∫ t in a..b, Real.exp (-(t ^ 2)) :=
    intervalIntegral.intervalIntegral_pos_of_pos_on (intInt_exp a b)
      (fun x _ => Real.exp_pos _) hab
  have hc : 0 < 2 / Real.sqrt π := by positivity
  have hlt : (∫ t in (0:ℝ)..a, Real.exp (-(t ^ 2)))
      < ∫ t in (0:ℝ)..b, Real.exp (-(t ^ 2)) := by linarith
  exact mul_lt_mul_of_pos_left hlt hc

/-- Constant upper bound for `exp (-(t^2))` on a segment with left endpoint `a ≥ 0`. -/
lemma integral_exp_sq_le (a b : ℝ) (h0 : 0 ≤ a) (hab : a ≤ b) :
    (∫ t in a..b, Real.exp (-(t ^ 2))) ≤ (b - a) * Real.exp (-(a ^ 2)) := by
  have h := intervalIntegral.integral_mono_on (g := fun _ => Real.exp (-(a ^ 2)))
    hab (intInt_exp a b) (intervalIntegrable_const)
    (fun x hx => Real.exp_le_exp.2 (neg_le_neg (pow_le_pow_left h0 hx.1 2)))
  simpa [smul_eq_mul] using h

lemma exp_neg_le_inv_quad (c : ℝ) (hc : 0 ≤ c) :
    Real.exp (-c) ≤ 1 / (1 + c + c ^ 2 / 2) := by
  have hq : 1 + c + c ^ 2 / 2 ≤ Real.exp c := Real.quadratic_le_exp_of_nonneg hc
  have hpos : 0 < 1 + c + c ^ 2 / 2 := by positivity
  rw [Real.exp_neg, one_div]
  exact inv_le_inv_of_le hpos hq

lemma piece_bound (a b : ℝ) (h0 : 0 ≤ a) (hab : a ≤ b) :
    (∫ t in a..b, Real.exp (-(t ^ 2)))
      ≤ (b - a) * (1 / (1 + a ^ 2 + (a ^ 2) ^ 2 / 2)) := by
  refine (integral_exp_sq_le a b h0 hab).trans ?_
  have h := exp_neg_le_inv_quad (a ^ 2) (by positivity)
  exact mul_le_mul_of_nonneg_left h (by linarith)

/-- Piecewise-constant upper bound for the Gaussian integral on `[0, 1.011]`. -/
lemma int_exp_upper :
    (∫ t in (0:ℝ)..(1011/1000 : ℝ), Real.exp (-(t ^ 2))) ≤ 81/100 := by
  have e1 := intervalIntegral.integral_add_adjacent_intervals
    (intInt_exp 0 (1/6)) (intInt_exp (1/6) (1011/1000))
  have e2 := intervalIntegral.integral_add_adjacent_intervals
    (intInt_exp (1/6) (2/6)) (intInt_exp (2/6) (1011/1000))
  have e3 := intervalIntegral.integral_add_adjacent_intervals
    (intInt_exp (2/6) (3/6)) (intInt_exp (3/6) (1011/1000))
  have e4 := intervalIntegral.integral_add_adjacent_intervals
    (intInt_exp (3/6) (4/6)) (intInt_exp (4/6) (1011/1000))
  have e5 := intervalIntegral.integral_add_adjacent_intervals
    (intInt_exp (4/6) (5/6)) (intInt_exp (5/6) (1011/1000))
  have e6 := intervalIntegral.integral_add_adjacent_intervals
    (intInt_exp (5/6) 1) (intInt_exp 1 (1011/1000))
  have p1 := piece_bound 0 (1/6) (by norm_num) (by norm_num)
  have p2 := piece_bound (1/6) (2/6) (by norm_num) (by norm_num)
  have p3 := piece_bound (2/6) (3/6) (by norm_num) (by norm_num)
  have p4 := piece_bound (3/6) (4/6) (by norm_num) (by norm_num)
  have p5 := piece_bound (4/6) (5/6) (by norm_num) (by norm_num)
  have p6 := piece_bound (5/6) 1 (by norm_num) (by norm_num)
  have p7 := piece_bound 1 (1011/1000) (by norm_num) (by norm_num)
  have hsum : (∫ t in (0:ℝ)..(1011/1000 : ℝ), Real.exp (-(t ^ 2)))
      = (∫ t in (0:ℝ)..(1/6:ℝ), Real.exp (-(t ^ 2)))
      + (∫ t in (1/6:ℝ)..(2/6:ℝ), Real.exp (-(t ^ 2)))
      + (∫ t in (2/6:ℝ)..(3/6:ℝ), Real.exp (-(t ^ 2)))
      + (∫ t in (3/6:ℝ)..(4/6:ℝ), Real.exp (-(t ^ 2)))
      + (∫ t in (4/6:ℝ)..(5/6:ℝ), Real.exp (-(t ^ 2)))
      + (∫ t in (5/6:ℝ)..(1:ℝ), Real.exp (-(t ^ 2)))
      + (∫ t in (1:ℝ)..(1011/1000:ℝ), Real.exp (-(t ^ 2))) := by
    linarith
  rw [hsum]
  have c1 : ((1:ℝ)/6 - 0) * (1 / (1 + 0 ^ 2 + ((0:ℝ) ^ 2) ^ 2 / 2)) = 1/6 := by norm_num
  nlinarith [p1, p2, p3, p4, p5, p6, p7]

lemma sqrt_pi_ge : (177/100 : ℝ) ≤ Real.sqrt π := by
  have h : (177/100 : ℝ) ^ 2 ≤ π := by
    nlinarith [Real.pi_gt_3141592]
  have := Real.sqrt_le_sqrt h
  rwa [Real.sqrt_sq (by norm_num : (0:ℝ) ≤ 177/100)] at this

lemma sqrt_pi_pos : 0 < Real.sqrt π := Real.sqrt_pos.2 Real.pi_pos

/-- `erf y < 0.95` for every `y ≤ 1.011`. -/
lemma erf_lt_nineteen_twentieths {y : ℝ} (hy : y ≤ 1011/1000) : erf y < 19/20 := by
  refine lt_of_le_of_lt (erf_le_erf hy) ?_
  unfold erf
  have hI := int_exp_upper
  have hI0 : 0 ≤ ∫ t in (0:ℝ)..(1011/1000 : ℝ), Real.exp (-(t ^ 2)) :=
    intervalIntegral.integral_nonneg (by norm_num) (fun u _ => (Real.exp_pos _).le)
  rw [div_mul_eq_mul_div, div_lt_iff sqrt_pi_pos]
  nlinarith [sqrt_pi_ge]

lemma exp_four_ge : (54 : ℝ) ≤ Real.exp 4 := by
  have h1 : Real.exp 4 = Real.exp 1 ^ 4 := by
    rw [← Real.exp_nat_mul]; norm_num
  have h2 : (2.7182818283 : ℝ) ^ 4 ≤ Real.exp 1 ^ 4 :=
    pow_le_pow_left (by norm_num) Real.exp_one_gt_d9.le 4
  nlinarith [h2]

/-- Gaussian tail bound: the integral of `exp (-(t^2))` over `(c, infinity)` is at most
`exp (-(c^2)) / (2 c)` for `c > 0`. -/
lemma integral_Ioi_exp_sq_le (c : ℝ) (hc : 0 < c) :
    (∫ t in Ioi c, Real.exp (-(t ^ 2))) ≤ Real.exp (-(c ^ 2)) / (2 * c) := by
  have hInt : IntegrableOn (fun t : ℝ => Real.exp (-(t ^ 2))) (Ioi c) := by
    have := (integrable_exp_neg_mul_sq (one_pos)).integrableOn (s := Ioi c)
    simpa using this
  set g : ℝ → ℝ := fun t => -Real.exp (-(t ^ 2)) / (2 * c) with hg_def
  have hderiv : ∀ x ∈ Ioi c, HasDerivAt g (x / c * Real.exp (-(x ^ 2))) x := by
    intro x _
    have h1 : HasDerivAt (fun t : ℝ => -(t ^ 2)) (-(2 * x)) x := by
      simpa using (hasDerivAt_pow 2 x).neg
    have h2 : HasDerivAt (fun t : ℝ => Real.exp (-(t ^ 2)))
        (Real.exp (-(x ^ 2)) * -(2 * x)) x := h1.exp
    have h3 := (h2.neg).div_const (2 * c)
    convert h3 using 1
    field_simp
    ring
  have hpos : ∀ x ∈ Ioi c, 0 ≤ x / c * Real.exp (-(x ^ 2)) := by
    intro x hx
    have hx0 : 0 < x := lt_trans hc hx
    positivity
  have htend : Tendsto g atTop (nhds 0) := by
    have h1 : Tendsto (fun t : ℝ => -(t ^ 2)) atTop atBot :=
      tendsto_neg_atTop_atBot.comp (tendsto_pow_atTop two_ne_zero)
    have h2 : Tendsto (fun t : ℝ => Real.exp (-(t ^ 2))) atTop (nhds 0) :=
      Real.tendsto_exp_atBot.comp h1
    have h3 := (h2.neg).div_const (2 * c)
    simpa using h3
  have hcont : ContinuousWithinAt g (Ici c) c := by
    have : Continuous g := (((continuous_pow 2).neg.exp).neg).div_const (2 * c)
    exact this.continuousWithinAt
  have hval := integral_Ioi_of_hasDerivAt_of_nonneg hcont hderiv hpos htend
  have hIntDeriv : IntegrableOn (fun x => x / c * Real.exp (-(x ^ 2))) (Ioi c) :=
    integrableOn_Ioi_deriv_of_nonneg hcont hderiv hpos htend
  have hmono : (∫ t in Ioi c, Real.exp (-(t ^ 2)))
      ≤ ∫ t in Ioi c, t / c * Real.exp (-(t ^ 2)) := by
    refine setIntegral_mono_on hInt hIntDeriv measurableSet_Ioi ?_
    intro x hx
    have hx1 : 1 ≤ x / c := (one_le_div hc).2 (le_of_lt hx)
    nlinarith [Real.exp_pos (-(x ^ 2))]
  rw [hval] at hmono
  have : 0 - g c = Real.exp (-(c ^ 2)) / (2 * c) := by
    simp [hg_def]
    ring
  linarith [hmono, this.symm.le, this.ge]

/-- Lower tail bound for the error function. -/
lemma one_sub_erf_le (c : ℝ) (hc : 0 < c) :
    1 - erf c ≤ Real.exp (-(c ^ 2)) / (c * Real.sqrt π) := by
  have hIoi : (∫ t in Ioi (0:ℝ), Real.exp (-(t ^ 2))) = Real.sqrt π / 2 := by
    have := integral_gaussian_Ioi 1
    simpa using this
  have hsplit : (∫ t in Ioi (0:ℝ), Real.exp (-(t ^ 2)))
      = (∫ t in Ioc (0:ℝ) c, Real.exp (-(t ^ 2)))
      + ∫ t in Ioi c, Real.exp (-(t ^ 2)) := by
    rw [← setIntegral_union (Ioc_disjoint_Ioi le_rfl) measurableSet_Ioi]
    · rw [Ioc_union_Ioi_eq_Ioi hc.le]
    · have := (integrable_exp_neg_mul_sq (one_pos)).integrableOn (s := Ioc (0:ℝ) c)
      simpa using this
    · have := (integrable_exp_neg_mul_sq (one_pos)).integrableOn (s := Ioi c)
      simpa using this
  have hIoc : (∫ t in (0:ℝ)..c, Real.exp (-(t ^ 2)))
      = ∫ t in Ioc (0:ℝ) c, Real.exp (-(t ^ 2)) :=
    intervalIntegral.integral_of_le hc.le
  have htail := integral_Ioi_exp_sq_le c hc
  have hπ : Real.sqrt π ≠ 0 := ne_of_gt sqrt_pi_pos
  have herf : erf c = (2 / Real.sqrt π) * ∫ t in (0:ℝ)..c, Real.exp (-(t ^ 2)) := rfl
  have hint : (∫ t in (0:ℝ)..c, Real.exp (-(t ^ 2)))
      = Real.sqrt π / 2 - ∫ t in Ioi c, Real.exp (-(t ^ 2)) := by
    rw [hIoc]; linarith [hsplit, hIoi]
  rw [herf, hint]
  have hexpand : 1 - 2 / Real.sqrt π *
      (Real.sqrt π / 2 - ∫ t in Ioi c, Real.exp (-(t ^ 2)))
      = (2 / Real.sqrt π) * ∫ t in Ioi c, Real.exp (-(t ^ 2)) := by
    field_simp
    ring
  rw [hexpand]
  have h2 : (2 / Real.sqrt π) * (∫ t in Ioi c, Real.exp (-(t ^ 2)))
      ≤ (2 / Real.sqrt π) * (Real.exp (-(c ^ 2)) / (2 * c)) :=
    mul_le_mul_of_nonneg_left htail (by positivity)
  refine h2.trans (le_of_eq ?_)
  field_simp
  ring

/-- `erf 2 > 0.95`. -/
lemma erf_two_gt : (19/20 : ℝ) < erf 2 := by
  have h := one_sub_erf_le 2 (by norm_num)
  have hexp : Real.exp (-((2:ℝ) ^ 2)) ≤ 1 / 54 := by
    have h4 : -((2:ℝ) ^ 2) = -4 := by norm_num
    rw [h4, Real.exp_neg]
    have h54 : ((1:ℝ)/54) = ((54:ℝ))⁻¹ := by norm_num
    rw [h54]
    exact inv_le_inv_of_le (by norm_num) exp_four_ge
  have hb : Real.exp (-((2:ℝ) ^ 2)) / (2 * Real.sqrt π) ≤ (1/54) / (2 * (177/100)) := by
    apply div_le_div (by norm_num) hexp (by norm_num)
    nlinarith [sqrt_pi_ge]
  have hc : ((1:ℝ)/54) / (2 * (177/100)) ≤ 1/100 := by norm_num
  linarith

lemma normal_cdf_zero : normal_cdf 0 = 1/2 := by
  simp [normal_cdf, erf_zero]

lemma sqrt_two_lb : (1414/1000 : ℝ) ≤ Real.sqrt 2 := by
  have h : (1414/1000 : ℝ) ^ 2 ≤ 2 := by norm_num
  have := Real.sqrt_le_sqrt h
  rwa [Real.sqrt_sq (by norm_num : (0:ℝ) ≤ 1414/1000)] at this

lemma sqrt_two_ub : Real.sqrt 2 ≤ 1415/1000 := by
  rw [show (1415/1000 : ℝ) = Real.sqrt ((1415/1000) ^ 2) from
    (Real.sqrt_sq (by norm_num)).symm]
  exact Real.sqrt_le_sqrt (by norm_num)

lemma sqrt_two_pos : 0 < Real.sqrt 2 := Real.sqrt_pos.2 (by norm_num)

/-- The two-tailed p-value `2 * (1 - normal_cdf z)` is below `0.05`
whenever `z ≥ 2 * sqrt 2`. -/
lemma p_value_lt_of_ge {z : ℝ} (hz : 2 * Real.sqrt 2 ≤ z) :
    2 * (1 - normal_cdf z) < 1/20 := by
  have h2 : (2:ℝ) ≤ z / Real.sqrt 2 := (le_div_iff sqrt_two_pos).2 (by linarith)
  have h3 := erf_two_gt.trans_le (erf_le_erf h2)
  unfold normal_cdf
  linarith

/-- The two-tailed p-value `2 * (1 - normal_cdf z)` is above `0.05`
whenever `z / sqrt 2 ≤ 1.011`. -/
lemma p_value_gt_of_le {z : ℝ} (hz : z / Real.sqrt 2 ≤ 1011/1000) :
    1/20 < 2 * (1 - normal_cdf z) := by
  have h := erf_lt_nineteen_twentieths hz
  unfold normal_cdf
  linarith

lemma p_value_lt_one_of_pos {z : ℝ} (hz : 0 < z) :
    2 * (1 - normal_cdf z) < 1 := by
  have h0 : 0 < z / Real.sqrt 2 := by positivity
  have := erf_zero ▸ erf_lt_erf h0
  unfold normal_cdf
  linarith

lemma continuous_erf : Continuous erf :=
  continuous_const.mul
    (intervalIntegral.continuous_primitive (fun a b => intInt_exp a b) 0)

lemma continuous_normal_cdf : Continuous normal_cdf := by
  unfold normal_cdf
  exact (continuous_const.add (continuous_erf.comp (continuous_id.div_const _))).div_const _

lemma strictMono_normal_cdf : StrictMono normal_cdf := by
  intro a b hab
  have h1 : a / Real.sqrt 2 < b / Real.sqrt 2 :=
    (div_lt_div_right sqrt_two_pos).2 hab
  have h2 := erf_lt_erf h1
  unfold normal_cdf
  linarith


lemma normal_cdf_one_lt : normal_cdf 1 < 39/40 := by
  have h : (1:ℝ) / Real.sqrt 2 ≤ 1011/1000 := by
    rw [div_le_iff sqrt_two_pos]
    nlinarith [sqrt_two_lb]
  have := erf_lt_nineteen_twentieths h
  unfold normal_cdf
  linarith

lemma normal_cdf_three_gt : 39/40 < normal_cdf 3 := by
  have h : (2:ℝ) ≤ 3 / Real.sqrt 2 := by
    rw [le_div_iff sqrt_two_pos]
    nlinarith [sqrt_two_ub]
  have := erf_two_gt.trans_le (erf_le_erf h)
  unfold normal_cdf
  linarith

lemma exists_cdf_eq {p : ℝ} (h1 : 1/2 ≤ p) (h2 : p ≤ 39/40) :
    ∃ x, normal_cdf x = p := by
  have hcont : ContinuousOn normal_cdf (Icc 0 3) := continuous_normal_cdf.continuousOn
  have hmem : p ∈ Icc (normal_cdf 0) (normal_cdf 3) := by
    rw [normal_cdf_zero]
    exact ⟨h1, h2.trans normal_cdf_three_gt.le⟩
  obtain ⟨x, _, hx⟩ := intermediate_value_Icc (by norm_num) hcont hmem
  exact ⟨x, hx⟩

/-- Models `scipy.stats.norm.ppf`, the inverse of the standard normal CDF
(this is an external library primitive, not repository code; the spec describes
it as the exact inverse normal CDF). -/
noncomputable def ppf (p : ℝ) : ℝ := Function.invFun normal_cdf p

lemma ppf_spec {p : ℝ} (h1 : 1/2 ≤ p) (h2 : p ≤ 39/40) :
    normal_cdf (ppf p) = p :=
  Function.invFun_eq (exists_cdf_eq h1 h2)

/-- The 97.5 percent quantile exceeds 1. -/
lemma ppf_975_gt_one : 1 < ppf (39/40) := by
  have h := ppf_spec (p := 39/40) (by norm_num) (by norm_num)
  by_contra hle
  push_neg at hle
  have := strictMono_normal_cdf.monotone hle
  rw [h] at this
  linarith [normal_cdf_one_lt]

/-- The 80 percent quantile is positive. -/
lemma ppf_08_pos : 0 < ppf (8/10) := by
  have h := ppf_spec (p := 8/10) (by norm_num) (by norm_num)
  by_contra hle
  push_neg at hle
  have := strictMono_normal_cdf.monotone hle
  rw [h, normal_cdf_zero] at this
  linarith

/-! ## Data model of the significance engine -/

/-- One variant's metrics as parsed from the JSON input of
`calculate_significance`.  A guardrail key that is absent (or JSON `null`,
which `data.get(...)` also surfaces as missing) is `none`. -/
structure VariantData where
  conversions : ℚ
  visits : ℚ
  unsubscribe_rate : Option ℚ := none
  complaint_rate : Option ℚ := none
  deriving DecidableEq, Repr

instance : Inhabited VariantData := ⟨⟨0, 0, none, none⟩⟩

/-- The parsed JSON metrics object: an association list in insertion order
(Python dicts preserve insertion order and have unique keys). -/
abbrev Metrics := List (String × VariantData)

/-- Python runtime exceptions the statistics code can raise. -/
inductive PyErr where
  | zeroDivision
  | mathDomain
  deriving DecidableEq, Repr

/-- One entry of the `results` dict built by `calculate_significance`
(lines 96-106 of `metrics_plugin.py`). -/
structure VariantStats where
  conversions : ℚ
  visits : ℚ
  conversion_rate : ℚ
  uplift_percent : ℚ
  z_score : ℝ
  p_value : ℝ
  ci_low : ℝ
  ci_high : ℝ
  unsubscribe_rate : Option ℚ
  complaint_rate : Option ℚ

/-- The per-variant statistics computed by the loop body of
`calculate_significance` (lines 70-106 of `metrics_plugin.py`) when no
Python exception is raised:
* `rate_control = control["conversions"] / max(control["visits"], 1)` (line 64);
* `visits = max(data["visits"], 1)`, `rate = conv / visits` (lines 71-72);
* `pooled_p = (control["conversions"] + conv) / (control["visits"] + visits)`
  (line 75, raw control visits in the denominator);
* `pooled_se = sqrt(pooled_p (1-pooled_p) (1/control["visits"] + 1/visits))`
  (line 76, raw control visits); `z = 0` when `pooled_se == 0`, i.e. when its
  square is `0`, else `(rate - rate_control)/pooled_se` (lines 78-81);
* `p_value = 2 (1 - normal_cdf |z|)` (line 84);
* `se_diff` from the unpooled variances (lines 87-90, raw control visits),
  `ci = (rate - rate_control) -+ 1.96 * se_diff` (lines 91-92);
* `uplift = (rate - rate_control)/rate_control * 100` when `rate_control > 0`
  else `0` (line 94). -/
noncomputable def statsOk (c d : VariantData) : VariantStats :=
  let rate_control : ℚ := c.conversions / max c.visits 1
  let visits : ℚ := max d.visits 1
  let rate : ℚ := d.conversions / visits
  let pooled_p : ℚ := (c.conversions + d.conversions) / (c.visits + visits)
  let inner : ℚ := pooled_p * (1 - pooled_p) * (1 / c.visits + 1 / visits)
  let z : ℝ := if inner = 0 then 0
               else ((rate : ℝ) - (rate_control : ℝ)) / Real.sqrt (inner : ℝ)
  let se_diff : ℝ := Real.sqrt
    (((rate_control * (1 - rate_control) / c.visits + rate * (1 - rate) / visits : ℚ) : ℝ))
  { conversions := d.conversions
    visits := visits
    conversion_rate := rate
    uplift_percent := if 0 < rate_control then (rate - rate_control) / rate_control * 100 else 0
    z_score := z
    p_value := 2 * (1 - normal_cdf |z|)
    ci_low := ((rate : ℝ) - (rate_control : ℝ)) - 1.96 * se_diff
    ci_high := ((rate : ℝ) - (rate_control : ℝ)) + 1.96 * se_diff
    unsubscribe_rate := d.unsubscribe_rate
    complaint_rate := d.complaint_rate }

/-- The loop body of `calculate_significance` for one variant, with Python
runtime errors explicit, in source evaluation order:
* line 75 divides by `control["visits"] + visits` (`ZeroDivisionError` when 0);
* line 76 computes `1/control["visits"]` with the raw control visits
  (`ZeroDivisionError` when 0), then `math.sqrt` (domain error when negative);
* lines 87-90 divide by `control["visits"]` again (already covered) and take
  another `math.sqrt` (domain error when negative). -/
noncomputable def computeStats (c d : VariantData) : Except PyErr VariantStats :=
  if c.visits + max d.visits 1 = 0 then .error .zeroDivision
  else if c.visits = 0 then .error .zeroDivision
  else if ((c.conversions + d.conversions) / (c.visits + max d.visits 1)) *
      (1 - (c.conversions + d.conversions) / (c.visits + max d.visits 1)) *
      (1 / c.visits + 1 / max d.visits 1) < 0 then .error .mathDomain
  else if (c.conversions / max c.visits 1) * (1 - c.conversions / max c.visits 1) / c.visits
      + (d.conversions / max d.visits 1) * (1 - d.conversions / max d.visits 1) / max d.visits 1
      < 0 then .error .mathDomain
  else .ok (statsOk c d)

/-- The `for vid, data in metrics.items()` loop (lines 69-106), building the
`results` dict in insertion order and propagating the first Python
exception. -/
noncomputable def runAll (c : VariantData) :
    Metrics → Except PyErr (List (String × VariantStats))
  | [] => .ok []
  | (vid, d) :: rest =>
      match computeStats c d with
      | .error e => .error e
      | .ok s =>
          match runAll c rest with
          | .error e => .error e
          | .ok tail => .ok ((vid, s) :: tail)

open Classical in
/-- The winner-determination loop (lines 111-117): the first non-control
entry of `results`, in insertion order, with `p_value < 0.05` and positive
`uplift_percent`. -/
noncomputable def findWinner : List (String × VariantStats) → Option String
  | [] => none
  | (vid, s) :: rest =>
      if vid ≠ "control" ∧ s.p_value < 1/20 ∧ 0 < s.uplift_percent then some vid
      else findWinner rest

/-- Outcome of `calculate_significance` on a parsed metrics object: the JSON
result (`results` plus `significant_winner`), a returned JSON error object,
or an uncaught Python exception. -/
inductive CalcResult where
  | ok (results : List (String × VariantStats)) (significant_winner : Option String)
  | jsonError (message : String)
  | pyError (e : PyErr)

/-- `MetricsPlugin.calculate_significance` (lines 39-124 of
`metrics_plugin.py`) on an already-parsed metrics object.  The source message
for a missing control is rendered here without its inner quotes. -/
noncomputable def calculate_significance (m : Metrics) : CalcResult :=
  match m.lookup "control" with
  | none => .jsonError "Metrics must include a control variant"
  | some c =>
      match runAll c m with
      | .error e => .pyError e
      | .ok results => .ok results (findWinner results)

/-- The `results` dict of `calculate_significance`, when it returns one. -/
noncomputable def resultsOf (m : Metrics) : Option (List (String × VariantStats)) :=
  match calculate_significance m with
  | .ok rs _ => some rs
  | _ => none

/-- The `significant_winner` field of `calculate_significance`, when the call
returns normally. -/
noncomputable def winnerOf (m : Metrics) : Option (Option String) :=
  match calculate_significance m with
  | .ok _ w => some w
  | _ => none

/-! ## Guardrails and the decision token (`experiment_runner.py`) -/

/-- Guardrail check for one treatment against the control
(`experiment_runner.py` lines 193-196):
`stats.get("unsubscribe_rate", 0) <= 1.2 * control.get("unsubscribe_rate", 1e-6)`
and `stats.get("complaint_rate", 0) <= 1.1 * control.get("complaint_rate", 1e-6)`;
a missing treatment metric defaults to `0`, a missing control metric to
`1e-6`. -/
def treatOk (c d : VariantData) : Prop :=
  d.unsubscribe_rate.getD 0 ≤ (1.2 : ℚ) * c.unsubscribe_rate.getD (1/1000000) ∧
  d.complaint_rate.getD 0 ≤ (1.1 : ℚ) * c.complaint_rate.getD (1/1000000)

instance (c d : VariantData) : Decidable (treatOk c d) := by
  unfold treatOk; infer_instance

inductive GStatus where
  | ok
  | violated
  deriving DecidableEq, Repr

/-- The guardrail loop of `run_statistical_analysis` (lines 186-197): any
non-control variant failing `treatOk` marks the experiment `VIOLATED`.  The
guardrail fields of each entry of the plugin's `results` are the pass-through
of its input metrics, so the check is stated on the metrics object; a missing
control entry behaves as the empty dict (all metrics absent), mirroring
`signif.get("control", {})` on line 187. -/
def guardrail_status (m : Metrics) : GStatus :=
  let c := (m.lookup "control").getD default
  if ∀ p ∈ m, p.1 = "control" ∨ treatOk c p.2 then .ok else .violated

/-- The decision tokens of `run_statistical_analysis` (lines 212-218). -/
inductive Decision where
  | halt
  | deploy (v : String)
  | noDecision
  deriving DecidableEq, Repr

/-- The final decision of `run_statistical_analysis` (lines 212-218):
guardrail violation always yields HALT; otherwise a significant winner is
deployed; otherwise no decision yet.  (In the running glue the winner loop
reads the key `"uplift"`, which the plugin never emits - it emits
`"uplift_percent"` - and iterates the wrapper object instead of the
per-variant results, so `deploy` is unreachable there; this model wires the
decision rule to the plugin's `significant_winner`, the documented intent of
both files.) -/
noncomputable def recommendationOf (m : Metrics) : Option Decision :=
  match calculate_significance m with
  | .ok _ w =>
      some (if guardrail_status m = .violated then .halt
            else match w with
                 | some v => .deploy v
                 | none => .noDecision)
  | _ => none

/-! ## Validity and the normal-form lemma -/

/-- Well-formedness of one variant record: non-negative conversions, at most
the (clamped) visit count. -/
def VariantData.Valid (d : VariantData) : Prop :=
  0 ≤ d.conversions ∧ d.conversions ≤ max d.visits 1

/-- A metrics object with a well-formed control (at least one visit) and
well-formed entries. -/
def MetricsValid (m : Metrics) (c : VariantData) : Prop :=
  m.lookup "control" = some c ∧ 1 ≤ c.visits ∧ c.conversions ≤ c.visits ∧
    0 ≤ c.conversions ∧ ∀ p ∈ m, p.2.Valid

lemma computeStats_ok {c d : VariantData} (hc1 : 1 ≤ c.visits)
    (hc2 : c.conversions ≤ c.visits) (hc3 : 0 ≤ c.conversions)
    (hd : d.Valid) : computeStats c d = .ok (statsOk c d) := by
  obtain ⟨hd0, hd1⟩ := hd
  have hv1 : (1:ℚ) ≤ max d.visits 1 := le_max_right _ _
  have hcv : (0:ℚ) < c.visits := lt_of_lt_of_le one_pos hc1
  have hden : (0:ℚ) < c.visits + max d.visits 1 := by linarith
  have h1 : ¬ (c.visits + max d.visits 1 = 0) := ne_of_gt hden
  have h2 : ¬ (c.visits = 0) := ne_of_gt hcv
  have hp0 : 0 ≤ (c.conversions + d.conversions) / (c.visits + max d.visits 1) :=
    div_nonneg (by linarith) hden.le
  have hp1 : (c.conversions + d.conversions) / (c.visits + max d.visits 1) ≤ 1 := by
    rw [div_le_one hden]; linarith
  have h3 : ¬ (((c.conversions + d.conversions) / (c.visits + max d.visits 1)) *
      (1 - (c.conversions + d.conversions) / (c.visits + max d.visits 1)) *
      (1 / c.visits + 1 / max d.visits 1) < 0) := by
    push_neg
    have hs : (0:ℚ) ≤ 1 / c.visits + 1 / max d.visits 1 := by positivity
    exact mul_nonneg (mul_nonneg hp0 (by linarith)) hs
  have hmaxc : max c.visits 1 = c.visits := max_eq_left hc1
  have hrc0 : 0 ≤ c.conversions / max c.visits 1 :=
    div_nonneg hc3 (le_trans zero_le_one (le_max_right _ _))
  have hrc1 : c.conversions / max c.visits 1 ≤ 1 := by
    rw [hmaxc, div_le_one hcv]; exact hc2
  have hr0 : 0 ≤ d.conversions / max d.visits 1 := div_nonneg hd0 (by linarith)
  have hr1 : d.conversions / max d.visits 1 ≤ 1 := by
    rw [div_le_one (by linarith)]; exact hd1
  have h4 : ¬ ((c.conversions / max c.visits 1) * (1 - c.conversions / max c.visits 1) / c.visits
      + (d.conversions / max d.visits 1) * (1 - d.conversions / max d.visits 1) / max d.visits 1
      < 0) := by
    push_neg
    have t1 : 0 ≤ (c.conversions / max c.visits 1) * (1 - c.conversions / max c.visits 1)
        / c.visits := div_nonneg (mul_nonneg hrc0 (by linarith)) hcv.le
    have t2 : 0 ≤ (d.conversions / max d.visits 1) * (1 - d.conversions / max d.visits 1)
        / max d.visits 1 := div_nonneg (mul_nonneg hr0 (by linarith)) (by linarith)
    linarith
  simp only [computeStats, if_neg h1, if_neg h2, if_neg h3, if_neg h4]

lemma runAll_ok {c : VariantData} {m : Metrics}
    (h : ∀ p ∈ m, computeStats c p.2 = .ok (statsOk c p.2)) :
    runAll c m = .ok (m.map (fun p => (p.1, statsOk c p.2))) := by
  induction m with
  | nil => rfl
  | cons hd tl ih =>
      obtain ⟨vid, d⟩ := hd
      have h1 := h (vid, d) (List.mem_cons_self _ _)
      have h2 : runAll c tl = .ok (tl.map fun p => (p.1, statsOk c p.2)) :=
        ih (fun p hp => h p (List.mem_cons_of_mem _ hp))
      simp [runAll, h1, h2]

/-- Normal form of `calculate_significance` on valid input: the per-variant
statistics in insertion order, and the winner of the first-match loop. -/
lemma calc_of_valid {m : Metrics} {c : VariantData} (h : MetricsValid m c) :
    calculate_significance m
      = .ok (m.map fun p => (p.1, statsOk c p.2))
          (findWinner (m.map fun p => (p.1, statsOk c p.2))) := by
  obtain ⟨hc, h1, h2, h3, hall⟩ := h
  have hrun := runAll_ok (c := c) (m := m)
    (fun p hp => computeStats_ok h1 h2 h3 (hall p hp))
  simp [calculate_significance, hc, hrun]

lemma findWinner_cons_hit {vid : String} {s : VariantStats}
    {rest : List (String × VariantStats)}
    (h : vid ≠ "control" ∧ s.p_value < 1/20 ∧ 0 < s.uplift_percent) :
    findWinner ((vid, s) :: rest) = some vid := by
  simp only [findWinner]
  rw [if_pos h]

lemma findWinner_cons_skip {vid : String} {s : VariantStats}
    {rest : List (String × VariantStats)}
    (h : ¬ (vid ≠ "control" ∧ s.p_value < 1/20 ∧ 0 < s.uplift_percent)) :
    findWinner ((vid, s) :: rest) = findWinner rest := by
  simp only [findWinner]
  rw [if_neg h]

lemma findWinner_eq_some {rs : List (String × VariantStats)} {v : String}
    (h : findWinner rs = some v) :
    ∃ s, (v, s) ∈ rs ∧ v ≠ "control" ∧ s.p_value < 1/20 ∧ 0 < s.uplift_percent := by
  induction rs with
  | nil => simp [findWinner] at h
  | cons hd tl ih =>
      obtain ⟨vid, s⟩ := hd
      by_cases hcond : vid ≠ "control" ∧ s.p_value < 1/20 ∧ 0 < s.uplift_percent
      · rw [findWinner_cons_hit hcond] at h
        obtain rfl : vid = v := Option.some.inj h
        exact ⟨s, List.mem_cons_self _ _, hcond⟩
      · rw [findWinner_cons_skip hcond] at h
        obtain ⟨s2, hmem, hrest⟩ := ih h
        exact ⟨s2, List.mem_cons_of_mem _ hmem, hrest⟩

/-! ## `stats_analysis.py` -/

/-- Result record of `StatisticalAnalyzer.calculate_two_proportion_test`
(lines 86-95 of `stats_analysis.py`). -/
structure TwoPropResult where
  rate_a : ℚ
  rate_b : ℚ
  uplift_percentage : ℚ
  p_value : ℝ
  z_score : ℝ
  ci_lower : ℝ
  ci_upper : ℝ
  is_significant : Prop
  confidence_level : ℝ

/-- `StatisticalAnalyzer.calculate_two_proportion_test` (lines 20-103 of
`stats_analysis.py`): rejects non-positive visits with a `ValueError` whose
fixed message names no variant (lines 46-47); otherwise computes the
two-proportion z-test with `z_critical = ppf((1 + confidence_level)/2)`
derived from the confidence level (line 77), and
`is_significant = p_value < alpha` with `alpha = 1 - confidence_level`
(lines 83-84).  `math.sqrt` domain errors are surfaced as `ValueError`s. -/
noncomputable def calculate_two_proportion_test (ca va cb vb : ℚ) (cl : ℝ) :
    Except String TwoPropResult :=
  if va ≤ 0 ∨ vb ≤ 0 then
    .error "Visits for both variants must be greater than zero."
  else
    if ((ca + cb) / (va + vb)) * (1 - (ca + cb) / (va + vb)) * (1 / va + 1 / vb) < 0 then
      .error "math domain error"
    else
      if (ca / va) * (1 - ca / va) / va + (cb / vb) * (1 - cb / vb) / vb < 0 then
        .error "math domain error"
      else
        let rate_a : ℚ := ca / va
        let rate_b : ℚ := cb / vb
        let pooled_se : ℝ :=
          Real.sqrt ((((ca + cb) / (va + vb)) * (1 - (ca + cb) / (va + vb))
            * (1 / va + 1 / vb) : ℚ) : ℝ)
        let z : ℝ := if 0 < pooled_se then ((rate_b : ℝ) - (rate_a : ℝ)) / pooled_se else 0
        let se_diff : ℝ :=
          Real.sqrt (((rate_a * (1 - rate_a) / va + rate_b * (1 - rate_b) / vb : ℚ) : ℝ))
        let z_critical : ℝ := ppf ((1 + cl) / 2)
        .ok { rate_a := rate_a
              rate_b := rate_b
              uplift_percentage := if 0 < rate_a then (rate_b - rate_a) / rate_a * 100 else 0
              p_value := 2 * (1 - normal_cdf |z|)
              z_score := z
              ci_lower := ((rate_b : ℝ) - (rate_a : ℝ)) - z_critical * se_diff
              ci_upper := ((rate_b : ℝ) - (rate_a : ℝ)) + z_critical * se_diff
              is_significant := 2 * (1 - normal_cdf |z|) < 1 - cl
              confidence_level := cl }

/-- The real-valued quotient of `StatisticalAnalyzer.calculate_sample_size_required`
(lines 131-144 of `stats_analysis.py`), before `math.ceil`:
`(z_alpha + z_beta)^2 * 2 * pooled * (1 - pooled) / (rate_b - baseline)^2`
with `z_alpha = ppf(1 - significance/2)`, `z_beta = ppf(power)`,
`rate_b = baseline * (1 + mde)` and `pooled = (baseline + rate_b)/2`. -/
noncomputable def sample_size_real (baseline_rate mde power significance : ℝ) : ℝ :=
  ((ppf (1 - significance / 2) + ppf power) ^ 2 * 2
      * ((baseline_rate + baseline_rate * (1 + mde)) / 2)
      * (1 - (baseline_rate + baseline_rate * (1 + mde)) / 2))
    / (baseline_rate * (1 + mde) - baseline_rate) ^ 2

/-- `StatisticalAnalyzer.calculate_sample_size_required` (lines 108-148):
validates the inputs (lines 128-129, 141-142), then returns the ceiling of
the real-valued quotient (line 144). -/
noncomputable def calculate_sample_size_required
    (baseline_rate mde power significance : ℝ) : Except String ℤ :=
  if baseline_rate ≤ 0 ∨ mde ≤ 0 then
    .error "Rates and effects must be greater than zero."
  else if (baseline_rate * (1 + mde) - baseline_rate) ^ 2 ≤ 0 then
    .error "Invalid minimum detectable effect; denominator is zero."
  else .ok ⌈sample_size_real baseline_rate mde power significance⌉

/-! ## Square-root bounding helpers -/

lemma sqrt_ub {q b : ℝ} (hb : 0 ≤ b) (h : q ≤ b ^ 2) : Real.sqrt q ≤ b := by
  calc Real.sqrt q ≤ Real.sqrt (b ^ 2) := Real.sqrt_le_sqrt h
  _ = b := Real.sqrt_sq hb

lemma sqrt_lb {q a : ℝ} (ha : 0 ≤ a) (h : a ^ 2 ≤ q) : a ≤ Real.sqrt q := by
  calc a = Real.sqrt (a ^ 2) := (Real.sqrt_sq ha).symm
  _ ≤ Real.sqrt q := Real.sqrt_le_sqrt h

/-! ## The concrete scenario of claim C1:
control 100/1000, treatment A 120/1000, no guardrail data. -/

def cC1 : VariantData := { conversions := 100, visits := 1000 }

def dA1 : VariantData := { conversions := 120, visits := 1000 }

def mC1 : Metrics := [("control", cC1), ("A", dA1)]

noncomputable def rsC1 : List (String × VariantStats) :=
  mC1.map fun p => (p.1, statsOk cC1 p.2)

lemma mC1_valid : MetricsValid mC1 cC1 := by
  refine ⟨rfl, by norm_num [cC1], by norm_num [cC1], by norm_num [cC1], ?_⟩
  intro p hp
  simp only [mC1, List.mem_cons, List.mem_singleton] at hp
  rcases hp with h | h | h
  · subst h; constructor <;> norm_num [cC1, VariantData.Valid]
  · subst h; constructor <;> norm_num [dA1, VariantData.Valid]
  · cases h

lemma statsA1_z : (statsOk cC1 dA1).z_score
    = (1/50 : ℝ) / Real.sqrt ((979/5000000 : ℝ)) := by
  norm_num [statsOk, cC1, dA1]

lemma statsA1_z_pos : (0:ℝ) < (1/50 : ℝ) / Real.sqrt (979/5000000) := by
  have : (0:ℝ) < Real.sqrt (979/5000000) := Real.sqrt_pos.2 (by norm_num)
  positivity

lemma statsA1_p_eq : (statsOk cC1 dA1).p_value
    = 2 * (1 - normal_cdf |(1/50 : ℝ) / Real.sqrt (979/5000000)|) := by
  norm_num [statsOk, cC1, dA1]

lemma statsA1_p_gt : 1/20 < (statsOk cC1 dA1).p_value := by
  rw [statsA1_p_eq, abs_of_pos statsA1_z_pos]
  apply p_value_gt_of_le
  rw [div_div, ← Real.sqrt_mul (by norm_num : (0:ℝ) ≤ 979/5000000)]
  have h1 : (979/5000000 : ℝ) * 2 = 979/2500000 := by norm_num
  rw [h1]
  have h2 : (19786/1000000 : ℝ) ≤ Real.sqrt (979/2500000) :=
    sqrt_lb (by norm_num) (by norm_num)
  have h3 : 0 < Real.sqrt (979/2500000 : ℝ) := Real.sqrt_pos.2 (by norm_num)
  rw [div_le_iff h3]
  calc (1/50 : ℝ) ≤ (1011/1000) * (19786/1000000) := by norm_num
  _ ≤ (1011/1000) * Real.sqrt (979/2500000) := by nlinarith

lemma statsA1_p_lt_one : (statsOk cC1 dA1).p_value < 1 := by
  rw [statsA1_p_eq, abs_of_pos statsA1_z_pos]
  exact p_value_lt_one_of_pos statsA1_z_pos

lemma statsA1_z_bounds :
    (142/100 : ℝ) < (statsOk cC1 dA1).z_score ∧ (statsOk cC1 dA1).z_score < 144/100 := by
  rw [statsA1_z]
  have hlb : (139/10000 : ℝ) ≤ Real.sqrt (979/5000000) :=
    sqrt_lb (by norm_num) (by norm_num)
  have hub : Real.sqrt (979/5000000 : ℝ) ≤ 14/1000 :=
    sqrt_ub (by norm_num) (by norm_num)
  have hpos : 0 < Real.sqrt (979/5000000 : ℝ) := Real.sqrt_pos.2 (by norm_num)
  constructor
  · rw [lt_div_iff hpos]; nlinarith
  · rw [div_lt_iff hpos]; nlinarith

lemma rsC1_eq : rsC1 = [("control", statsOk cC1 cC1), ("A", statsOk cC1 dA1)] := by
  simp [rsC1, mC1]

lemma winner_rsC1 : findWinner rsC1 = none := by
  rw [rsC1_eq]
  rw [findWinner_cons_skip (fun h => h.1 rfl)]
  rw [findWinner_cons_skip (fun h => absurd h.2.1 (not_lt.2 statsA1_p_gt.le))]
  rfl

lemma calc_mC1 : calculate_significance mC1 = CalcResult.ok rsC1 none := by
  have h := calc_of_valid mC1_valid
  have h2 : (mC1.map fun p => (p.1, statsOk cC1 p.2)) = rsC1 := rfl
  rw [h2, winner_rsC1] at h
  exact h

lemma guardrail_mC1 : guardrail_status mC1 = GStatus.ok := by
  have hall : ∀ p ∈ mC1, p.1 = "control" ∨ treatOk ((mC1.lookup "control").getD default) p.2 := by
    intro p hp
    simp only [mC1, List.mem_cons, List.mem_singleton] at hp
    rcases hp with h | h | h
    · left; rw [h]
    · right; rw [h]; constructor <;> norm_num [mC1, cC1, dA1, treatOk]
    · cases h
  simp only [guardrail_status, if_pos hall]

lemma recommendation_mC1 : recommendationOf mC1 = some Decision.noDecision := by
  simp [recommendationOf, calc_mC1, guardrail_mC1]

/-- C1 counterexample: for control 100/1000 and treatment A 120/1000 with no
guardrail data, the code does not produce the claimed outcome: the claim says
z is approximately 2.024, p approximately 0.043 and the recommendation is
DEPLOY("A"), but the computed `significant_winner` is `none`, A's p-value
exceeds 0.05, and the recommendation is NO_DECISION_YET. -/
theorem C1_claim_false :
    calculate_significance mC1 = CalcResult.ok rsC1 none ∧
    1/20 < (statsOk cC1 dA1).p_value ∧
    recommendationOf mC1 = some Decision.noDecision :=
  ⟨calc_mC1, statsA1_p_gt, recommendation_mC1⟩

/-- C1 (amended): for control = 100/1000, A = 120/1000, no guardrail data:
rate_control = 0.10, rate_A = 0.12, uplift_percent = 20.0; the z-score lies
in (1.42, 1.44) (it is approximately 1.429, not 2.024, because
se_pool = sqrt(0.11*0.89*(1/1000+1/1000)) is approximately 0.013993, not
0.009882); the p-value lies in (0.05, 1) (approximately 0.153, not 0.043),
so A is not significant at alpha = 0.05; significant_winner is none;
guardrail_status is OK; the recommendation is NO_DECISION_YET. -/
theorem C1_amended :
    (statsOk cC1 cC1).conversion_rate = 1/10 ∧
    (statsOk cC1 dA1).conversion_rate = 3/25 ∧
    (statsOk cC1 dA1).uplift_percent = 20 ∧
    ((142/100 : ℝ) < (statsOk cC1 dA1).z_score ∧
      (statsOk cC1 dA1).z_score < 144/100) ∧
    (1/20 < (statsOk cC1 dA1).p_value ∧ (statsOk cC1 dA1).p_value < 1) ∧
    winnerOf mC1 = some none ∧
    guardrail_status mC1 = GStatus.ok ∧
    recommendationOf mC1 = some Decision.noDecision := by
  refine ⟨?_, ?_, ?_, statsA1_z_bounds, ⟨statsA1_p_gt, statsA1_p_lt_one⟩, ?_,
    guardrail_mC1, recommendation_mC1⟩
  · norm_num [statsOk, cC1]
  · norm_num [statsOk, cC1, dA1]
  · norm_num [statsOk, cC1, dA1]
  · simp [winnerOf, calc_mC1]

/-- C10: whenever the control variant reports `visits = 0`,
`calculate_significance` raises an uncaught ZeroDivisionError (at
`1/control["visits"]` inside the pooled standard error, line 76 of
`metrics_plugin.py`) instead of returning a JSON error object, even though
`rate_control` itself was computed with the clamped denominator
`max(visits, 1)` on line 64. -/
theorem C10_zero_control_visits (m : Metrics) (c : VariantData)
    (hc : m.lookup "control" = some c) (hv : c.visits = 0) :
    calculate_significance m = CalcResult.pyError PyErr.zeroDivision := by
  obtain ⟨p, tl, rfl⟩ : ∃ p tl, m = p :: tl := by
    cases m with
    | nil => simp [List.lookup] at hc
    | cons p tl => exact ⟨p, tl, rfl⟩
  obtain ⟨vid, d⟩ := p
  have hmax : (1:ℚ) ≤ max d.visits 1 := le_max_right _ _
  have h1 : ¬ (c.visits + max d.visits 1 = 0) := by
    rw [hv, zero_add]
    intro h
    rw [h] at hmax
    norm_num at hmax
  have hcs : computeStats c d = .error .zeroDivision := by
    simp only [computeStats, if_neg h1, if_pos hv]
  simp [calculate_significance, hc, runAll, hcs]

def mC10 : Metrics := [("control", { conversions := 5, visits := 0 })]

/-- Witness for C10: control with 5 conversions and 0 visits raises the
modelled ZeroDivisionError. -/
theorem C10_zero_control_visits_witness :
    calculate_significance mC10 = CalcResult.pyError PyErr.zeroDivision :=
  C10_zero_control_visits mC10 { conversions := 5, visits := 0 } rfl rfl

/-- C8: with zero control conversions (zero control rate) on valid input the
computation succeeds - no exception - and every variant's uplift_percent is 0,
because the division by the control rate is guarded by `if rate_control > 0`
(line 94 of `metrics_plugin.py`). -/
theorem C8_zero_control_rate (m : Metrics) (c : VariantData)
    (hval : MetricsValid m c) (h0 : c.conversions = 0) :
    ∃ rs w, calculate_significance m = CalcResult.ok rs w ∧
      ∀ q ∈ rs, (q : String × VariantStats).2.uplift_percent = 0 := by
  refine ⟨_, _, calc_of_valid hval, ?_⟩
  intro q hq
  simp only [List.mem_map] at hq
  obtain ⟨p, hp, rfl⟩ := hq
  have hng : ¬ (0 < c.conversions / max c.visits 1) := by
    rw [h0, zero_div]
    exact lt_irrefl 0
  simp only [statsOk, if_neg hng]

def mC8 : Metrics :=
  [("control", { conversions := 0, visits := 1000 }),
   ("A", { conversions := 50, visits := 1000 })]

lemma mC8_valid : MetricsValid mC8 { conversions := 0, visits := 1000 } := by
  refine ⟨rfl, by norm_num, by norm_num, by norm_num, ?_⟩
  intro p hp
  simp only [mC8, List.mem_cons, List.mem_singleton] at hp
  rcases hp with h | h | h
  · subst h; exact ⟨by norm_num, by norm_num⟩
  · subst h; exact ⟨by norm_num, by norm_num⟩
  · cases h

/-- Witness for C8: control 0/1000 with treatment 50/1000 succeeds, all
uplifts zero. -/
theorem C8_zero_control_rate_witness :
    ∃ rs w, calculate_significance mC8 = CalcResult.ok rs w ∧
      ∀ q ∈ rs, (q : String × VariantStats).2.uplift_percent = 0 :=
  C8_zero_control_rate mC8 { conversions := 0, visits := 1000 } mC8_valid rfl

lemma mem_eq_of_nodup_keys {m : List (String × VariantData)}
    (hnd : (m.map Prod.fst).Nodup) {k : String} {x y : VariantData}
    (hx : (k, x) ∈ m) (hy : (k, y) ∈ m) : x = y := by
  induction m with
  | nil => cases hx
  | cons hd tl ih =>
      rw [List.map_cons, List.nodup_cons] at hnd
      rcases List.mem_cons.1 hx with h1 | h1
      · rcases List.mem_cons.1 hy with h2 | h2
        · exact congrArg Prod.snd (h1.trans h2.symm)
        · exfalso
          apply hnd.1
          have hk : hd.1 = k := by rw [← h1]
          rw [hk]
          exact List.mem_map_of_mem Prod.fst h2
      · rcases List.mem_cons.1 hy with h2 | h2
        · exfalso
          apply hnd.1
          have hk : hd.1 = k := by rw [← h2]
          rw [hk]
          exact List.mem_map_of_mem Prod.fst h1
        · exact ih hnd.2 h1 h2

/-- C7: a treatment whose conversion rate equals the control conversion rate
gets z_score = 0 (both branches of lines 78-81) and p_value = 1 (line 84 with
normal_cdf 0 = 1/2), and is never selected as significant_winner (it fails
`p_value < 0.05` in the winner loop). -/
theorem C7_equal_rates (m : Metrics) (c : VariantData) (v : String)
    (d : VariantData) (hval : MetricsValid m c)
    (hnd : (m.map Prod.fst).Nodup) (hmem : (v, d) ∈ m) (hv : v ≠ "control")
    (heq : d.conversions / max d.visits 1 = c.conversions / max c.visits 1) :
    ∃ rs w, calculate_significance m = CalcResult.ok rs w ∧
      (v, statsOk c d) ∈ rs ∧
      (statsOk c d).z_score = 0 ∧ (statsOk c d).p_value = 1 ∧ w ≠ some v := by
  have hz : (statsOk c d).z_score = 0 := by
    simp only [statsOk]
    split
    · rfl
    · rw [div_eq_zero_iff]
      left
      push_cast [heq]
      ring
  have hp1 : (statsOk c d).p_value = 1 := by
    have hpz : (statsOk c d).p_value
        = 2 * (1 - normal_cdf |(statsOk c d).z_score|) := rfl
    rw [hpz, hz, abs_zero, normal_cdf_zero]
    norm_num
  refine ⟨_, _, calc_of_valid hval, ?_, hz, hp1, ?_⟩
  · exact List.mem_map.2 ⟨(v, d), hmem, rfl⟩
  · intro hw
    obtain ⟨s, hs_mem, _, hp, _⟩ := findWinner_eq_some hw
    simp only [List.mem_map] at hs_mem
    obtain ⟨p, hp_mem, hps⟩ := hs_mem
    have hfst : p.1 = v := congrArg Prod.fst hps
    have hsnd : statsOk c p.2 = s := congrArg Prod.snd hps
    have hpd : p.2 = d := by
      apply mem_eq_of_nodup_keys hnd _ hmem
      rw [← hfst]
      exact hp_mem
    rw [hpd] at hsnd
    rw [← hsnd, hp1] at hp
    norm_num at hp

def mC7 : Metrics :=
  [("control", { conversions := 100, visits := 1000 }),
   ("A", { conversions := 100, visits := 1000 })]

lemma mC7_valid : MetricsValid mC7 { conversions := 100, visits := 1000 } := by
  refine ⟨rfl, by norm_num, by norm_num, by norm_num, ?_⟩
  intro p hp
  simp only [mC7, List.mem_cons, List.mem_singleton] at hp
  rcases hp with h | h | h
  · subst h; exact ⟨by norm_num, by norm_num⟩
  · subst h; exact ⟨by norm_num, by norm_num⟩
  · cases h

/-- Witness for C7: control 100/1000 versus A 100/1000. -/
theorem C7_equal_rates_witness :
    ∃ rs w, calculate_significance mC7 = CalcResult.ok rs w ∧
      ("A", statsOk { conversions := 100, visits := 1000 }
        { conversions := 100, visits := 1000 }) ∈ rs ∧
      (statsOk { conversions := 100, visits := 1000 }
        { conversions := 100, visits := 1000 }).z_score = 0 ∧
      (statsOk { conversions := 100, visits := 1000 }
        { conversions := 100, visits := 1000 }).p_value = 1 ∧ w ≠ some "A" :=
  C7_equal_rates mC7 _ "A" _ mC7_valid (by simp [mC7]) (by simp [mC7])
    (by simp) rfl

/-- Generic significance bound: the p-value computed from
`z = num / sqrt q` is below 0.05 once `2 q <= (num/2)^2` (i.e. `z >= 2 sqrt 2`). -/
lemma p_small_of (num : ℝ) (q : ℚ) (hnum : 0 < num) (hq : (0:ℚ) < q)
    (h : (q : ℝ) * 2 ≤ (num / 2) ^ 2) :
    2 * (1 - normal_cdf |num / Real.sqrt ((q : ℝ))|) < 1/20 := by
  have hq0 : (0:ℝ) < (q:ℝ) := by exact_mod_cast hq
  have hs : 0 < Real.sqrt ((q:ℝ)) := Real.sqrt_pos.2 hq0
  have hzpos : 0 < num / Real.sqrt ((q:ℝ)) := by positivity
  rw [abs_of_pos hzpos]
  apply p_value_lt_of_ge
  rw [le_div_iff hs]
  have h1 : Real.sqrt 2 * Real.sqrt ((q:ℝ)) = Real.sqrt (2 * (q:ℝ)) :=
    (Real.sqrt_mul (by norm_num) _).symm
  have h2 : Real.sqrt (2 * (q:ℝ)) ≤ num / 2 := by
    apply sqrt_ub (by positivity)
    linarith
  calc 2 * Real.sqrt 2 * Real.sqrt ((q:ℝ)) = 2 * Real.sqrt (2 * (q:ℝ)) := by
        rw [mul_assoc, h1]
  _ ≤ 2 * (num / 2) := by linarith
  _ = num := by ring

/-! ## Concrete input for claim C2: a significant treatment that violates the
unsubscribe guardrail. -/

def cC2 : VariantData :=
  { conversions := 100, visits := 1000, unsubscribe_rate := some (1/100) }

def dA2 : VariantData :=
  { conversions := 200, visits := 1000, unsubscribe_rate := some (5/100) }

def mC2 : Metrics := [("control", cC2), ("A", dA2)]

lemma mC2_valid : MetricsValid mC2 cC2 := by
  refine ⟨rfl, by norm_num [cC2], by norm_num [cC2], by norm_num [cC2], ?_⟩
  intro p hp
  simp only [mC2, List.mem_cons, List.mem_singleton] at hp
  rcases hp with h | h | h
  · subst h; exact ⟨by norm_num [cC2], by norm_num [cC2]⟩
  · subst h; exact ⟨by norm_num [dA2], by norm_num [dA2]⟩
  · cases h

lemma statsA2_p_eq : (statsOk cC2 dA2).p_value
    = 2 * (1 - normal_cdf |(1/10 : ℝ) / Real.sqrt ((51/200000 : ℝ))|) := by
  norm_num [statsOk, cC2, dA2]

lemma statsA2_p_lt : (statsOk cC2 dA2).p_value < 1/20 := by
  rw [statsA2_p_eq]
  have h := p_small_of (1/10) (51/200000) (by norm_num) (by norm_num) (by norm_num)
  convert h using 4
  norm_num

lemma statsA2_uplift : (statsOk cC2 dA2).uplift_percent = 100 := by
  norm_num [statsOk, cC2, dA2]

lemma winner_mC2 : winnerOf mC2 = some (some "A") := by
  have hcalc := calc_of_valid mC2_valid
  unfold winnerOf
  rw [hcalc]
  have hmap : (mC2.map fun p => (p.1, statsOk cC2 p.2))
      = [("control", statsOk cC2 cC2), ("A", statsOk cC2 dA2)] := by
    simp [mC2]
  rw [hmap]
  rw [findWinner_cons_skip (fun h => h.1 rfl)]
  rw [findWinner_cons_hit ⟨by simp, statsA2_p_lt, by rw [statsA2_uplift]; norm_num⟩]

lemma guardrail_mC2 : guardrail_status mC2 = GStatus.violated := by
  unfold guardrail_status
  rw [if_neg]
  intro hall
  have h := hall ("A", dA2) (by simp [mC2])
  rcases h with h | h
  · simp at h
  · have hc : (mC2.lookup "control").getD default = cC2 := rfl
    rw [hc] at h
    have := h.1
    norm_num [dA2, cC2] at this

lemma recommendation_mC2 : recommendationOf mC2 = some Decision.halt := by
  have hcalc := calc_of_valid mC2_valid
  simp [recommendationOf, hcalc, guardrail_mC2]

/-- C2 counterexample: with control 100/1000 (unsubscribe rate 0.01) and
treatment A 200/1000 (unsubscribe rate 0.05), A is highly significant and so
`significant_winner = "A"` is set by the plugin even though the guardrail
status is VIOLATED - the winner is not conditioned on guardrails, refuting
the first half of the claim. -/
theorem C2_claim_false :
    winnerOf mC2 = some (some "A") ∧ guardrail_status mC2 = GStatus.violated :=
  ⟨winner_mC2, guardrail_mC2⟩

lemma calc_ok_winner {m : Metrics} {rs : List (String × VariantStats)}
    {w : Option String} (h : calculate_significance m = CalcResult.ok rs w) :
    w = findWinner rs := by
  unfold calculate_significance at h
  cases hl : m.lookup "control" with
  | none => rw [hl] at h; cases h
  | some c =>
      rw [hl] at h
      dsimp only at h
      cases hr : runAll c m with
      | error e => rw [hr] at h; cases h
      | ok results =>
          rw [hr] at h
          dsimp only at h
          injection h with h1 h2
          rw [← h1, ← h2]

/-- C2 (amended): `significant_winner` is set exactly from the significance
test - whenever it is set, that variant has `p_value < 0.05` and positive
uplift, with no guardrail condition - and whenever `guardrail_status` is
VIOLATED the recommendation is HALT, overriding any winner. -/
theorem C2_amended :
    (∀ (m : Metrics) (v : String), winnerOf m = some (some v) →
      ∃ rs s, calculate_significance m = CalcResult.ok rs (some v) ∧
        (v, s) ∈ rs ∧ s.p_value < 1/20 ∧ 0 < s.uplift_percent) ∧
    (∀ (m : Metrics) (r : Decision), recommendationOf m = some r →
      guardrail_status m = GStatus.violated → r = Decision.halt) := by
  constructor
  · intro m v h
    unfold winnerOf at h
    cases hcalc : calculate_significance m with
    | ok rs w =>
        rw [hcalc] at h
        dsimp only at h
        have hw : w = some v := by
          injection h
        subst hw
        have hfw := calc_ok_winner hcalc
        obtain ⟨s, hmem, _, hp, hu⟩ := findWinner_eq_some hfw.symm
        exact ⟨rs, s, by rfl, hmem, hp, hu⟩
    | jsonError msg => rw [hcalc] at h; cases h
    | pyError e => rw [hcalc] at h; cases h
  · intro m r h hviol
    unfold recommendationOf at h
    cases hcalc : calculate_significance m with
    | ok rs w =>
        rw [hcalc] at h
        dsimp only at h
        rw [hviol] at h
        simp at h
        exact h.symm
    | jsonError msg => rw [hcalc] at h; cases h
    | pyError e => rw [hcalc] at h; cases h

/-- Witness for C2 (amended), applied at the concrete guardrail-violating
input `mC2`. -/
theorem C2_amended_witness :
    (∃ rs s, calculate_significance mC2 = CalcResult.ok rs (some "A") ∧
      ("A", s) ∈ rs ∧ s.p_value < 1/20 ∧ 0 < s.uplift_percent) ∧
    Decision.halt = Decision.halt :=
  ⟨C2_amended.1 mC2 "A" winner_mC2,
   C2_amended.2 mC2 Decision.halt recommendation_mC2 guardrail_mC2⟩

/-- The condition of the winner loop, phrased on the input data via the
computed statistics. -/
noncomputable def WinnerCand (c d : VariantData) : Prop :=
  (statsOk c d).p_value < 1/20 ∧ 0 < (statsOk c d).uplift_percent

lemma findWinner_append_skip {l1 l2 : List (String × VariantStats)}
    (h : ∀ q ∈ l1, q.1 = "control"
      ∨ ¬ (q.2.p_value < 1/20 ∧ 0 < q.2.uplift_percent)) :
    findWinner (l1 ++ l2) = findWinner l2 := by
  induction l1 with
  | nil => rfl
  | cons hd tl ih =>
      obtain ⟨vid, s⟩ := hd
      have hhd := h (vid, s) (List.mem_cons_self _ _)
      rw [List.cons_append, findWinner_cons_skip ?_,
        ih (fun q hq => h q (List.mem_cons_of_mem _ hq))]
      intro hcond
      rcases hhd with h1 | h1
      · exact hcond.1 h1
      · exact h1 ⟨hcond.2.1, hcond.2.2⟩

/-- C5: first-match winner policy.  If the input is `pre ++ (v, d) :: post`
where no entry of `pre` is a winner candidate (other than being the control),
`v` is a non-control candidate (p_value < 0.05 and positive uplift), and some
later treatment in `post` is also a candidate, then `significant_winner` is
`v` - the first candidate in the caller-supplied input order, regardless of
the uplift magnitudes. -/
theorem C5_first_match (pre post : Metrics) (c : VariantData) (v : String)
    (d : VariantData) (hval : MetricsValid (pre ++ (v, d) :: post) c)
    (hpre : ∀ q ∈ pre, q.1 = "control" ∨ ¬ WinnerCand c q.2)
    (hv : v ≠ "control") (hcand : WinnerCand c d)
    (hsecond : ∃ q ∈ post, q.1 ≠ "control" ∧ WinnerCand c q.2) :
    winnerOf (pre ++ (v, d) :: post) = some (some v) := by
  have hcalc := calc_of_valid hval
  unfold winnerOf
  rw [hcalc]
  have hmap : ((pre ++ (v, d) :: post).map fun p => (p.1, statsOk c p.2))
      = (pre.map fun p => (p.1, statsOk c p.2))
        ++ ((v, statsOk c d) :: (post.map fun p => (p.1, statsOk c p.2))) := by
    simp
  rw [hmap]
  rw [findWinner_append_skip ?_]
  · rw [findWinner_cons_hit ⟨hv, hcand.1, hcand.2⟩]
  · intro q hq
    simp only [List.mem_map] at hq
    obtain ⟨p, hp, rfl⟩ := hq
    rcases hpre p hp with h1 | h1
    · exact Or.inl h1
    · exact Or.inr h1

/-! Concrete input for the C5 witness: control 100/1000, A 200/1000
(uplift 100), B 300/1000 (uplift 200, larger than A's): both treatments are
individually significant, and the winner is A, the first in input order. -/

def dA5 : VariantData := { conversions := 200, visits := 1000 }

def dB5 : VariantData := { conversions := 300, visits := 1000 }

lemma mC5_valid : MetricsValid ([("control", cC1)] ++ ("A", dA5) :: [("B", dB5)]) cC1 := by
  refine ⟨rfl, by norm_num [cC1], by norm_num [cC1], by norm_num [cC1], ?_⟩
  intro p hp
  simp only [List.cons_append, List.nil_append, List.mem_cons,
    List.mem_singleton] at hp
  rcases hp with h | h | h | h
  · subst h; exact ⟨by norm_num [cC1], by norm_num [cC1]⟩
  · subst h; exact ⟨by norm_num [dA5], by norm_num [dA5]⟩
  · subst h; exact ⟨by norm_num [dB5], by norm_num [dB5]⟩
  · cases h

lemma statsA5_cand : WinnerCand cC1 dA5 := by
  constructor
  · have heq : (statsOk cC1 dA5).p_value
        = 2 * (1 - normal_cdf |(1/10 : ℝ) / Real.sqrt ((51/200000 : ℝ))|) := by
      norm_num [statsOk, cC1, dA5]
    rw [heq]
    have h := p_small_of (1/10) (51/200000) (by norm_num) (by norm_num) (by norm_num)
    convert h using 4
    norm_num
  · norm_num [statsOk, cC1, dA5]

lemma statsB5_cand : WinnerCand cC1 dB5 := by
  constructor
  · have heq : (statsOk cC1 dB5).p_value
        = 2 * (1 - normal_cdf |(1/5 : ℝ) / Real.sqrt ((4/12500 : ℝ))|) := by
      norm_num [statsOk, cC1, dB5]
    rw [heq]
    have h := p_small_of (1/5) (4/12500) (by norm_num) (by norm_num) (by norm_num)
    convert h using 4
    norm_num
  · norm_num [statsOk, cC1, dB5]

/-- Witness for C5: with control 100/1000, A 200/1000, B 300/1000 (B has the
larger uplift), the winner is A, the first candidate in input order. -/
theorem C5_first_match_witness :
    winnerOf ([("control", cC1)] ++ ("A", dA5) :: [("B", dB5)])
      = some (some "A") :=
  C5_first_match [("control", cC1)] [("B", dB5)] cC1 "A" dA5 mC5_valid
    (by intro q hq; simp only [List.mem_singleton] at hq; subst hq; left; rfl)
    (by simp) statsA5_cand
    ⟨("B", dB5), by simp, by simp, statsB5_cand⟩

/-! ## Claim C3: rejection of non-positive visits -/

def dT3 : VariantData := { conversions := 0, visits := 0 }

def mC3 : Metrics := [("control", cC1), ("T", dT3)]

noncomputable def rsC3 : List (String × VariantStats) :=
  mC3.map fun p => (p.1, statsOk cC1 p.2)

lemma mC3_valid : MetricsValid mC3 cC1 := by
  refine ⟨rfl, by norm_num [cC1], by norm_num [cC1], by norm_num [cC1], ?_⟩
  intro p hp
  simp only [mC3, List.mem_cons, List.mem_singleton] at hp
  rcases hp with h | h | h
  · subst h; exact ⟨by norm_num [cC1], by norm_num [cC1]⟩
  · subst h; exact ⟨by norm_num [dT3], by norm_num [dT3]⟩
  · cases h

lemma statsT3_uplift : (statsOk cC1 dT3).uplift_percent = -100 := by
  norm_num [statsOk, cC1, dT3]

lemma calc_mC3 : calculate_significance mC3 = CalcResult.ok rsC3 none := by
  have h := calc_of_valid mC3_valid
  have h2 : (mC3.map fun p => (p.1, statsOk cC1 p.2)) = rsC3 := rfl
  rw [h2] at h
  have hw : findWinner rsC3 = none := by
    have hrs : rsC3 = [("control", statsOk cC1 cC1), ("T", statsOk cC1 dT3)] := by
      simp [rsC3, mC3]
    rw [hrs]
    rw [findWinner_cons_skip (fun hcond => hcond.1 rfl)]
    rw [findWinner_cons_skip ?_]
    · rfl
    · intro hcond
      have := hcond.2.2
      rw [statsT3_uplift] at this
      norm_num at this
  rw [hw] at h
  exact h

/-- C3 counterexample: a treatment with `visits = 0` is NOT rejected:
`calculate_significance` returns a normal result in which the treatment's
denominator has been silently clamped to `max(visits, 1) = 1` (its reported
visits are 1 and its conversion rate is 0/1 = 0). -/
theorem C3_claim_false :
    calculate_significance mC3 = CalcResult.ok rsC3 none ∧
    (statsOk cC1 dT3).visits = 1 ∧ (statsOk cC1 dT3).conversion_rate = 0 :=
  ⟨calc_mC3, by norm_num [statsOk, cC1, dT3], by norm_num [statsOk, cC1, dT3]⟩

/-- C3 (amended): the two-proportion test in `stats_analysis.py` rejects any
non-positive visit count with a ValueError whose fixed message names no
variant; `calculate_significance` in `metrics_plugin.py` does not reject
non-positive visits at all - it substitutes the default denominator
`max(visits, 1)` and proceeds. -/
theorem C3_amended :
    (∀ (ca va cb vb : ℚ) (cl : ℝ), va ≤ 0 ∨ vb ≤ 0 →
      calculate_two_proportion_test ca va cb vb cl
        = Except.error "Visits for both variants must be greater than zero.") ∧
    ((statsOk cC1 dT3).visits = 1 ∧
      calculate_significance mC3 = CalcResult.ok rsC3 none) := by
  constructor
  · intro ca va cb vb cl h
    unfold calculate_two_proportion_test
    rw [if_pos h]
  · exact ⟨by norm_num [statsOk, cC1, dT3], calc_mC3⟩

/-- Witness for C3 (amended): the two-proportion test rejects visits 0, and
the plugin accepts the clamped input. -/
theorem C3_amended_witness :
    calculate_two_proportion_test 5 0 3 10 (95/100)
      = Except.error "Visits for both variants must be greater than zero." ∧
    (statsOk cC1 dT3).visits = 1 :=
  ⟨C3_amended.1 5 0 3 10 (95/100) (Or.inl le_rfl), C3_amended.2.1⟩

/-! ## Claim C4: guardrail semantics for missing metrics -/

/-- The claim's guardrail semantics, stated from the spec's words: a
treatment fails a guardrail metric exactly when both control and treatment
report the metric and the treatment's rate exceeds threshold * control_rate;
a metric absent on either side is skipped. -/
def specTreatFails (c d : VariantData) : Prop :=
  (∃ cu du, c.unsubscribe_rate = some cu ∧ d.unsubscribe_rate = some du ∧
    (1.2 : ℚ) * cu < du) ∨
  (∃ cc dc, c.complaint_rate = some cc ∧ d.complaint_rate = some dc ∧
    (1.1 : ℚ) * cc < dc)

def cC4 : VariantData := { conversions := 100, visits := 1000 }

def dA4 : VariantData :=
  { conversions := 100, visits := 1000, unsubscribe_rate := some (1/100) }

def mC4 : Metrics := [("control", cC4), ("A", dA4)]

/-- C4 counterexample: the control does not report `unsubscribe_rate` while
treatment A reports 0.01.  Under the claim the metric is skipped (no fail);
the code compares 0.01 against `1.2 * 1e-6` and flags the experiment
VIOLATED. -/
theorem C4_claim_false :
    guardrail_status mC4 = GStatus.violated ∧ ¬ specTreatFails cC4 dA4 := by
  constructor
  · unfold guardrail_status
    rw [if_neg]
    intro hall
    have h := hall ("A", dA4) (by simp [mC4])
    rcases h with h | h
    · simp at h
    · have hc : (mC4.lookup "control").getD default = cC4 := rfl
      rw [hc] at h
      have := h.1
      norm_num [dA4, cC4] at this
  · intro h
    rcases h with ⟨cu, du, hcu, _⟩ | ⟨cc, dc, hcc, _⟩
    · simp [cC4] at hcu
    · simp [cC4] at hcc

/-- C4 (amended): the guardrail status is VIOLATED exactly when some
non-control entry's reported rate (0 when it reports none) exceeds the
threshold times the control's reported rate (1e-6 when the control reports
none): a missing treatment metric always passes (treated as 0), and a
missing control metric is replaced by 1e-6 rather than skipping the check. -/
theorem C4_amended (m : Metrics) :
    guardrail_status m = GStatus.violated ↔
      ∃ p ∈ m, p.1 ≠ "control" ∧
        ((1.2 : ℚ) * ((m.lookup "control").getD default).unsubscribe_rate.getD (1/1000000)
            < p.2.unsubscribe_rate.getD 0 ∨
         (1.1 : ℚ) * ((m.lookup "control").getD default).complaint_rate.getD (1/1000000)
            < p.2.complaint_rate.getD 0) := by
  unfold guardrail_status
  by_cases hall : ∀ p ∈ m,
      p.1 = "control" ∨ treatOk ((m.lookup "control").getD default) p.2
  · rw [if_pos hall]
    constructor
    · intro h; cases h
    · rintro ⟨p, hp, hne, hfail⟩
      rcases hall p hp with h1 | h1
      · exact absurd h1 hne
      · rcases hfail with h2 | h2
        · exact absurd h1.1 (not_le.2 h2)
        · exact absurd h1.2 (not_le.2 h2)
  · rw [if_neg hall]
    constructor
    · intro _
      push_neg at hall
      obtain ⟨p, hp, h1, h2⟩ := hall
      unfold treatOk at h2
      rw [not_and_or, not_le, not_le] at h2
      exact ⟨p, hp, h1, h2⟩
    · intro _; rfl

/-! ## Claim C6: the confidence-interval critical value -/

/-- C6 counterexample: at control 100/1000, A 120/1000 the metrics-plugin CI
half-width is exactly `1.96 * se_diff` with `se_diff > 0` (lines 91-92 of
`metrics_plugin.py` hard-code 1.96), so the upper bound differs from the
claimed `1.959964 * se_diff` form. -/
theorem C6_claim_false :
    (statsOk cC1 dA1).ci_high - (statsOk cC1 dA1).ci_low
      = 2 * (196/100) * Real.sqrt ((489/2500000 : ℝ)) ∧
    0 < Real.sqrt ((489/2500000 : ℝ)) ∧
    (statsOk cC1 dA1).ci_high
      ≠ ((3/25 : ℝ) - 1/10) + (1959964/1000000) * Real.sqrt ((489/2500000 : ℝ)) := by
  have hse : (0:ℝ) < Real.sqrt ((489/2500000 : ℝ)) := Real.sqrt_pos.2 (by norm_num)
  have hhigh : (statsOk cC1 dA1).ci_high
      = ((3/25 : ℝ) - 1/10) + (196/100) * Real.sqrt ((489/2500000 : ℝ)) := by
    norm_num [statsOk, cC1, dA1]
  have hlow : (statsOk cC1 dA1).ci_low
      = ((3/25 : ℝ) - 1/10) - (196/100) * Real.sqrt ((489/2500000 : ℝ)) := by
    norm_num [statsOk, cC1, dA1]
  refine ⟨by rw [hhigh, hlow]; ring, hse, ?_⟩
  rw [hhigh]
  intro h
  have h2 : ((196/100 : ℝ) - 1959964/1000000) * Real.sqrt ((489/2500000 : ℝ)) = 0 := by
    linarith
  have h3 : ((196/100 : ℝ) - 1959964/1000000) ≠ 0 := by norm_num
  have := mul_eq_zero.1 h2
  rcases this with h4 | h4
  · exact h3 h4
  · exact (ne_of_gt hse) h4

/-- C6 (amended): the metrics-plugin CI is always
`(rate_t - rate_c) -+ 1.96 * se_diff` with the rounded constant 1.96
hard-coded (independent of any significance level, which the plugin does not
even take as a parameter), while `calculate_two_proportion_test` in
`stats_analysis.py` derives its critical value as
`ppf((1 + confidence_level)/2)` from the confidence level. -/
theorem C6_amended :
    (∀ c d : VariantData, (statsOk c d).ci_high - (statsOk c d).ci_low
        = 2 * (196/100) * Real.sqrt
          (((c.conversions / max c.visits 1) * (1 - c.conversions / max c.visits 1)
              / c.visits
            + (d.conversions / max d.visits 1) * (1 - d.conversions / max d.visits 1)
              / max d.visits 1 : ℚ) : ℝ)) ∧
    (∀ (ca va cb vb : ℚ) (cl : ℝ), 0 < va → 0 < vb → 0 ≤ ca → ca ≤ va →
      0 ≤ cb → cb ≤ vb →
      ∃ r, calculate_two_proportion_test ca va cb vb cl = Except.ok r ∧
        r.ci_upper - r.ci_lower = 2 * ppf ((1 + cl)/2) * Real.sqrt
          (((ca/va) * (1 - ca/va) / va + (cb/vb) * (1 - cb/vb) / vb : ℚ) : ℝ)) := by
  constructor
  · intro c d
    simp only [statsOk]
    ring_nf
  · intro ca va cb vb cl hva hvb hca0 hca hcb0 hcb
    have h1 : ¬ (va ≤ 0 ∨ vb ≤ 0) := by
      push_neg
      exact ⟨hva, hvb⟩
    have hp0 : 0 ≤ (ca + cb) / (va + vb) := div_nonneg (by linarith) (by linarith)
    have hp1 : (ca + cb) / (va + vb) ≤ 1 := by
      rw [div_le_one (by linarith)]
      linarith
    have h2 : ¬ (((ca + cb) / (va + vb)) * (1 - (ca + cb) / (va + vb))
        * (1 / va + 1 / vb) < 0) := by
      push_neg
      have hs : (0:ℚ) ≤ 1 / va + 1 / vb := by positivity
      exact mul_nonneg (mul_nonneg hp0 (by linarith)) hs
    have hra0 : 0 ≤ ca / va := div_nonneg hca0 hva.le
    have hra1 : ca / va ≤ 1 := by rw [div_le_one hva]; exact hca
    have hrb0 : 0 ≤ cb / vb := div_nonneg hcb0 hvb.le
    have hrb1 : cb / vb ≤ 1 := by rw [div_le_one hvb]; exact hcb
    have h3 : ¬ ((ca / va) * (1 - ca / va) / va + (cb / vb) * (1 - cb / vb) / vb < 0) := by
      push_neg
      have t1 : 0 ≤ (ca / va) * (1 - ca / va) / va :=
        div_nonneg (mul_nonneg hra0 (by linarith)) hva.le
      have t2 : 0 ≤ (cb / vb) * (1 - cb / vb) / vb :=
        div_nonneg (mul_nonneg hrb0 (by linarith)) hvb.le
      linarith
    unfold calculate_two_proportion_test
    rw [if_neg h1, if_neg h2, if_neg h3]
    refine ⟨_, rfl, ?_⟩
    dsimp only
    ring

/-- Witness for C6 (amended) at control 100/1000, treatment 120/1000,
confidence level 0.95. -/
theorem C6_amended_witness :
    ((statsOk cC1 dA1).ci_high - (statsOk cC1 dA1).ci_low
      = 2 * (196/100) * Real.sqrt
        (((cC1.conversions / max cC1.visits 1) * (1 - cC1.conversions / max cC1.visits 1)
            / cC1.visits
          + (dA1.conversions / max dA1.visits 1) * (1 - dA1.conversions / max dA1.visits 1)
            / max dA1.visits 1 : ℚ) : ℝ)) ∧
    (∃ r, calculate_two_proportion_test 100 1000 120 1000 (95/100) = Except.ok r ∧
      r.ci_upper - r.ci_lower = 2 * ppf ((1 + (95/100 : ℝ))/2) * Real.sqrt
        ((((100:ℚ)/1000) * (1 - (100:ℚ)/1000) / 1000
          + ((120:ℚ)/1000) * (1 - (120:ℚ)/1000) / 1000 : ℚ) : ℝ)) :=
  ⟨C6_amended.1 cC1 dA1,
   C6_amended.2 100 1000 120 1000 (95/100) (by norm_num) (by norm_num)
     (by norm_num) (by norm_num) (by norm_num) (by norm_num)⟩

/-! ## Claim C9: monotonicity of the required sample size -/

lemma K_gt_one : 1 < ppf (1 - (1/20 : ℝ)/2) + ppf (8/10) := by
  have h975 : (1 - (1/20 : ℝ)/2) = 39/40 := by norm_num
  rw [h975]
  linarith [ppf_975_gt_one, ppf_08_pos]

/-- C9 counterexample: with baseline rate 1 (allowed by the validation, which
only requires it to be positive) and default power/significance, the result
strictly INCREASES from mde = 1/2 to mde = 1, refuting strict decrease. -/
theorem C9_claim_false :
    ∃ n1 n2 : ℤ,
      calculate_sample_size_required 1 (1/2) (8/10) (1/20) = Except.ok n1 ∧
      calculate_sample_size_required 1 1 (8/10) (1/20) = Except.ok n2 ∧
      n1 < n2 := by
  set K : ℝ := ppf (1 - (1/20 : ℝ)/2) + ppf (8/10) with hKdef
  clear_value K
  have hK : 1 < K := by rw [hKdef]; exact K_gt_one
  have hK2 : 1 < K ^ 2 := by nlinarith [sq_nonneg (K - 1)]
  have hf1 : sample_size_real 1 (1/2) (8/10) (1/20) = -(5/2) * K ^ 2 := by
    unfold sample_size_real
    rw [← hKdef]
    norm_num
    ring
  have hf2 : sample_size_real 1 1 (8/10) (1/20) = -(3/2) * K ^ 2 := by
    unfold sample_size_real
    rw [← hKdef]
    norm_num
    ring
  refine ⟨⌈(-(5/2) : ℝ) * K ^ 2⌉, ⌈(-(3/2) : ℝ) * K ^ 2⌉, ?_, ?_, ?_⟩
  · unfold calculate_sample_size_required
    rw [if_neg (by norm_num), if_neg (by norm_num), hf1]
  · unfold calculate_sample_size_required
    rw [if_neg (by norm_num), if_neg (by norm_num), hf2]
  · have hlt : (-(5/2) : ℝ) * K ^ 2 + 1 < (-(3/2)) * K ^ 2 := by nlinarith
    have h1 : (⌈(-(5/2) : ℝ) * K ^ 2⌉ : ℝ) < (-(5/2)) * K ^ 2 + 1 :=
      Int.ceil_lt_add_one _
    have h2 : ((-(3/2) : ℝ)) * K ^ 2 ≤ (⌈(-(3/2) : ℝ) * K ^ 2⌉ : ℝ) := Int.le_ceil _
    exact_mod_cast (h1.trans hlt).trans_le h2

/-- C9 (amended): for baseline rates in `(0, 1/2]` the pre-ceiling real-valued
required sample size strictly decreases as the minimum detectable effect
increases, and the integer result (after `math.ceil`) is antitone
(non-increasing; the ceiling can flatten a strict real decrease into
equality); for baseline rates near 1 the result can strictly increase, as the
counterexample shows. -/
theorem C9_amended (r e1 e2 : ℝ) (hr0 : 0 < r) (hr : r ≤ 1/2)
    (he1 : 0 < e1) (he : e1 < e2) :
    sample_size_real r e2 (8/10) (1/20) < sample_size_real r e1 (8/10) (1/20) ∧
    ∃ n1 n2 : ℤ,
      calculate_sample_size_required r e1 (8/10) (1/20) = Except.ok n1 ∧
      calculate_sample_size_required r e2 (8/10) (1/20) = Except.ok n2 ∧
      n2 ≤ n1 := by
  set K : ℝ := ppf (1 - (1/20 : ℝ)/2) + ppf (8/10) with hKdef
  clear_value K
  have hK : 1 < K := by rw [hKdef]; exact K_gt_one
  have hK2 : 1 < K ^ 2 := by nlinarith [sq_nonneg (K - 1)]
  have he2 : 0 < e2 := he1.trans he
  have hd1 : (0:ℝ) < (r * (1 + e1) - r) ^ 2 := by
    have : r * (1 + e1) - r = r * e1 := by ring
    rw [this]
    positivity
  have hd2 : (0:ℝ) < (r * (1 + e2) - r) ^ 2 := by
    have : r * (1 + e2) - r = r * e2 := by ring
    rw [this]
    positivity
  have hbracket : 0 < (e1 + e2 + e1 * e2 / 2) - r * (e1 + e2 + e1 * e2) := by
    have hx : 0 < e1 + e2 + e1 * e2 := by positivity
    have : r * (e1 + e2 + e1 * e2) ≤ (e1 + e2 + e1 * e2) / 2 := by nlinarith
    nlinarith
  have hkey : (r + r * e1 / 2) * (1 - (r + r * e1 / 2)) * e2 ^ 2
      - (r + r * e2 / 2) * (1 - (r + r * e2 / 2)) * e1 ^ 2
      = r * (e2 - e1) * ((e1 + e2 + e1 * e2 / 2) - r * (e1 + e2 + e1 * e2)) := by
    ring
  have hpos : 0 < (r + r * e1 / 2) * (1 - (r + r * e1 / 2)) * e2 ^ 2
      - (r + r * e2 / 2) * (1 - (r + r * e2 / 2)) * e1 ^ 2 := by
    rw [hkey]
    have := sub_pos.2 he
    positivity
  have hreal : sample_size_real r e2 (8/10) (1/20)
      < sample_size_real r e1 (8/10) (1/20) := by
    unfold sample_size_real
    rw [← hKdef]
    rw [div_lt_div_iff hd2 hd1]
    have hp1 : (r + r * (1 + e1)) / 2 = r + r * e1 / 2 := by ring
    have hp2 : (r + r * (1 + e2)) / 2 = r + r * e2 / 2 := by ring
    have hq1 : r * (1 + e1) - r = r * e1 := by ring
    have hq2 : r * (1 + e2) - r = r * e2 := by ring
    rw [hp1, hp2, hq1, hq2]
    have hK2pos : (0:ℝ) < K ^ 2 := by linarith
    nlinarith [mul_pos (mul_pos hK2pos (mul_pos hr0 hr0)) hpos]
  refine ⟨hreal, ⌈sample_size_real r e1 (8/10) (1/20)⌉,
    ⌈sample_size_real r e2 (8/10) (1/20)⌉, ?_, ?_, ?_⟩
  · unfold calculate_sample_size_required
    rw [if_neg (by push_neg; constructor <;> linarith), if_neg (not_le.2 hd1)]
  · unfold calculate_sample_size_required
    rw [if_neg (by push_neg; constructor <;> linarith), if_neg (not_le.2 hd2)]
  · exact Int.ceil_mono hreal.le

/-- Witness for C9 (amended) at baseline 1/4, effects 1/10 and 1/5. -/
theorem C9_amended_witness :
    sample_size_real (1/4) (1/5) (8/10) (1/20)
        < sample_size_real (1/4) (1/10) (8/10) (1/20) ∧
    ∃ n1 n2 : ℤ,
      calculate_sample_size_required (1/4) (1/10) (8/10) (1/20) = Except.ok n1 ∧
      calculate_sample_size_required (1/4) (1/5) (8/10) (1/20) = Except.ok n2 ∧
      n2 ≤ n1 :=
  C9_amended (1/4) (1/10) (1/5) (by norm_num) (by norm_num) (by norm_num)
    (by norm_num)
